import Mathlib

/-!
Verification development for the `usage-accountant` Python library
(`py/usageaccountant/accumulator.py`), shallowly embedded in Lean 4.

Modelling conventions:
* Python floats (`time.time()` results, usage amounts) are modelled as `ℚ`;
  every concrete value appearing in claims is exactly representable.
* `time.time()` is passed explicitly as a `now : ℚ` argument to `record`.
* Python `int(x)` on a float truncates toward zero; modelled by `pyInt`.
* The Kafka producer is abstracted: `produce` returns a `Future`, modelled by
  a `Bool` that records whether `done()` returns true; newly produced futures
  are pending (`false`).  The deque `self.__futures` is a `List Bool` whose
  head is the front of the deque.
* `self.__usage_batch` is a `defaultdict()` constructed WITHOUT a default
  factory, so subscripting a missing key raises `KeyError`; the dict preserves
  insertion order, so it is modelled as an association list.
* Exceptions are modelled with an `Option PyErr` component; mutations that
  happened before the exception was raised persist in the returned state,
  matching Python semantics.
-/

/-- Python `int()` applied to a rational: truncation toward zero. -/
def pyInt (q : ℚ) : ℤ := if 0 ≤ q then ⌊q⌋ else ⌈q⌉

/-- `class UsageUnit(Enum)` from `accumulator.py`. -/
inductive UsageUnit
  | SECONDS
  | BYTES
  | BYTES_SEC
  deriving DecidableEq, Repr

/-- The `.value` of each enum member. -/
def UsageUnit.value : UsageUnit → String
  | .SECONDS => "seconds"
  | .BYTES => "bytes"
  | .BYTES_SEC => "bytes_sec"

/-- `UsageKey = Tuple[int, str, str, UsageUnit]`. -/
abbrev UsageKey : Type := ℤ × String × String × UsageUnit

def DEFAULT_QUEUE_SIZE : ℕ := 10000

/-- Python exceptions this embedding can surface. -/
inductive PyErr
  | keyError
  | assertionError
  deriving DecidableEq, Repr

/-- The JSON object built in `flush` and handed to the producer:
`{"timestamp": key[0], "shared_resource_id": key[1], "app_feature": key[2],
  "usage_unit": key[3].value, "amount": amount}`. -/
structure Message where
  timestamp : ℤ
  shared_resource_id : String
  app_feature : String
  usage_unit : String
  amount : ℚ
  deriving DecidableEq, Repr

/-- The mutable fields of a `UsageAccumulator` instance. -/
structure UAState where
  first_timestamp : Option ℚ
  usage_batch : List (UsageKey × ℚ)
  granularity_sec : ℤ
  queue_size : ℕ
  futures : List Bool
  deriving DecidableEq, Repr

/-- Association-list lookup, mirroring Python dict key lookup. -/
def lookupKey : List (UsageKey × ℚ) → UsageKey → Option ℚ
  | [], _ => none
  | (k, v) :: rest, key => if k = key then some v else lookupKey rest key

/-- In-place update of an existing key (Python dicts keep the key's
insertion position on update). -/
def updateKey : List (UsageKey × ℚ) → UsageKey → ℚ → List (UsageKey × ℚ)
  | [], _, _ => []
  | (k, v) :: rest, key, val =>
      if k = key then (k, val) :: rest else (k, v) :: updateKey rest key val

/-- The state a fresh `UsageAccumulator.__init__` leaves behind:
`first_timestamp = None`, `usage_batch = defaultdict()` (empty),
`futures = deque()` (empty). -/
def initialState (granularity_sec : ℤ) (queue_size : ℕ) : UAState :=
  { first_timestamp := none
    usage_batch := []
    granularity_sec := granularity_sec
    queue_size := queue_size
    futures := [] }

/-- The assertion logic of `UsageAccumulator.__init__` (lines 79-95):
each argument is abstracted to whether it was supplied (`is not None`).
If `producer` is supplied, both `bootstrap_servers` and
`default_kafka_config` must be absent; otherwise both must be present.
A failed `assert` raises `AssertionError`. -/
def initAccumulator (granularity_sec : ℤ) (queue_size : ℕ)
    (producerGiven bootstrapServersGiven defaultKafkaConfigGiven : Bool) :
    Except PyErr UAState :=
  if producerGiven then
    if bootstrapServersGiven || defaultKafkaConfigGiven then
      .error .assertionError
    else
      .ok (initialState granularity_sec queue_size)
  else
    if bootstrapServersGiven && defaultKafkaConfigGiven then
      .ok (initialState granularity_sec queue_size)
    else
      .error .assertionError

/-- `while self.__futures and self.__futures[0].done(): self.__futures.popleft()`
(`UsageAccumulator.__prune_queue`). -/
def pruneQueue : List Bool → List Bool
  | [] => []
  | f :: rest => if f then pruneQueue rest else f :: rest

/-- Serialization of one batch entry inside the `flush` loop. -/
def mkMessage (key : UsageKey) (amount : ℚ) : Message :=
  { timestamp := key.1
    shared_resource_id := key.2.1
    app_feature := key.2.2.1
    usage_unit := key.2.2.2.value
    amount := amount }

/-- The `for key, amount in self.__usage_batch.items():` loop of `flush`:
stops (`break`) as soon as `len(self.__futures) == self.__queue_size`;
otherwise produces the serialized record and appends the (pending) future.
Returns the final futures deque and the produced messages in order.
Note the loop never mutates `self.__usage_batch`. -/
def flushLoop (queue_size : ℕ) :
    List (UsageKey × ℚ) → List Bool → List Bool × List Message
  | [], futures => (futures, [])
  | (key, amount) :: rest, futures =>
      if futures.length = queue_size then
        (futures, [])
      else
        let r := flushLoop queue_size rest (futures ++ [false])
        (r.1, mkMessage key amount :: r.2)

/-- `UsageAccumulator.flush(synchronous)`.  The body prunes the futures
deque and runs the produce loop; it never touches `first_timestamp` or
`usage_batch`, and the `synchronous` parameter is not read anywhere in the
body.  Returns the new state and the messages submitted to the producer. -/
def flush (s : UAState) (synchronous : Bool) : UAState × List Message :=
  let _ := synchronous
  let pruned := pruneQueue s.futures
  let r := flushLoop s.queue_size s.usage_batch pruned
  ({ s with futures := r.1 }, r.2)

/-- Result of a `record` call: the state after the call (including partial
mutations if an exception was raised), the exception if one was raised, and
any messages submitted by an auto-triggered flush. -/
structure RecordResult where
  state : UAState
  error : Option PyErr
  produced : List Message
  deriving DecidableEq, Repr

/-- `UsageAccumulator.record(resource_id, app_feature, amount, usage_type)`
with `now = time.time()` passed explicitly.

Mirrors the source line by line:
1. if `self.__first_timestamp is None`, set it to `now`;
2. `self.__usage_batch[(int(now / self.__granularity_sec), resource_id,
   app_feature, usage_type)] += amount` — since `__usage_batch` is a
   `defaultdict()` with no default factory, this raises `KeyError` when the
   key is absent (the `first_timestamp` mutation from step 1 persists);
3. if `now - self.__first_timestamp > self.__granularity_sec`, call
   `self.flush(synchronous=False)`. -/
def record (s : UAState) (now : ℚ) (resource_id app_feature : String)
    (amount : ℚ) (usage_type : UsageUnit) : RecordResult :=
  let ts := s.first_timestamp.getD now
  let s1 := { s with first_timestamp := some ts }
  let key : UsageKey :=
    (pyInt (now / (s.granularity_sec : ℚ)), resource_id, app_feature,
      usage_type)
  match lookupKey s1.usage_batch key with
  | none => { state := s1, error := some .keyError, produced := [] }
  | some old =>
      let s2 := { s1 with usage_batch := updateKey s1.usage_batch key (old + amount) }
      if (s2.granularity_sec : ℚ) < now - ts then
        let r := flush s2 false
        { state := r.1, error := none, produced := r.2 }
      else
        { state := s2, error := none, produced := [] }

/-! ### Concrete states used in the evaluation theorems -/

/-- `time.time()` value `1594839910.1` from the spec's Scenario A. -/
def tA1 : ℚ := (15948399101 : ℚ) / 10

/-- `time.time()` value `1594839920.1` from the spec's Scenario A. -/
def tA2 : ℚ := (15948399201 : ℚ) / 10

/-- `UsageAccumulator(granularity_sec=10)` with the default queue size. -/
def freshAccumulator : UAState := initialState 10 DEFAULT_QUEUE_SIZE

/-- Scenario A, first call: `record("metrics_consumer", "spans", 10.0, BYTES)`
at time `tA1`. -/
def recA1 : RecordResult :=
  record freshAccumulator tA1 "metrics_consumer" "spans" 10 .BYTES

/-- Scenario A, second call: `record("metrics_consumer", "transactions",
10.0, BYTES)` at time `tA1`. -/
def recA2 : RecordResult :=
  record recA1.state tA1 "metrics_consumer" "transactions" 10 .BYTES

/-- Scenario A, third call: `record("metrics_consumer", "spans", 10.0,
BYTES)` at time `tA2`. -/
def recA3 : RecordResult :=
  record recA2.state tA2 "metrics_consumer" "spans" 10 .BYTES

/-- Scenario A, fourth call: `record("metrics_consumer", "spans", 10.0,
BYTES)` at time `tA2` again. -/
def recA4 : RecordResult :=
  record recA3.state tA2 "metrics_consumer" "spans" 10 .BYTES

/-- The usage key for bucket `int(1594839910.1 / 10) = 159483991`. -/
def kSpans1 : UsageKey := (159483991, "metrics_consumer", "spans", .BYTES)

/-- A state holding one pending batch entry and no in-flight futures,
as the spec expects after a successful `record()` on a fresh accumulator. -/
def oneKeyState : UAState :=
  { first_timestamp := some tA1
    usage_batch := [(kSpans1, 10)]
    granularity_sec := 10
    queue_size := DEFAULT_QUEUE_SIZE
    futures := [] }

/-! ### Helper lemmas -/

theorem pruneQueue_length_le (l : List Bool) :
    (pruneQueue l).length ≤ l.length := by
  induction l with
  | nil => simp [pruneQueue]
  | cons f rest ih =>
    simp only [pruneQueue]
    split
    · exact ih.trans (Nat.le_succ _)
    · simp

theorem flushLoop_spec (N : ℕ) (batch : List (UsageKey × ℚ)) :
    ∀ futs : List Bool, futs.length ≤ N →
      (flushLoop N batch futs).1.length ≤ N ∧
      (flushLoop N batch futs).2.length + futs.length
        = (flushLoop N batch futs).1.length := by
  induction batch with
  | nil => intro futs h; simpa [flushLoop] using h
  | cons ka rest ih =>
    intro futs h
    obtain ⟨key, amount⟩ := ka
    by_cases hc : futs.length = N
    · simp [flushLoop, hc, h]
    · have h2 : (futs ++ [false]).length ≤ N := by
        simp only [List.length_append, List.length_cons, List.length_nil]
        omega
      have hrec := ih (futs ++ [false]) h2
      simp only [flushLoop, if_neg hc, List.length_cons]
      refine ⟨hrec.1, ?_⟩
      have := hrec.2
      simp only [List.length_append, List.length_cons, List.length_nil] at this
      omega

theorem flushLoop_cons_of_room (N : ℕ) (key : UsageKey) (amount : ℚ)
    (rest : List (UsageKey × ℚ)) (futs : List Bool)
    (h : futs.length ≠ N) :
    (flushLoop N ((key, amount) :: rest) futs).2
      = mkMessage key amount :: (flushLoop N rest (futs ++ [false])).2 := by
  simp [flushLoop, if_neg h]

/-! ### Claim theorems -/

/-- Claim C2: on a fresh accumulator, `record()` is claimed to create the
absent batch entry at 0 and add `amount`, never failing.  In the code,
`self.__usage_batch` is `defaultdict()` with no default factory, so the
augmented subscript on the absent key raises `KeyError` and the batch stays
empty (only `first_timestamp` was mutated before the raise). -/
theorem record_fresh_key_raises_keyError :
    recA1.error = some PyErr.keyError ∧
    recA1.state.usage_batch = [] ∧
    recA1.state.first_timestamp = some tA1 := by
  simp [recA1, record, freshAccumulator, initialState, lookupKey]

/-- Claim C1: repeated `record()` calls for the same key are claimed to flush
a record carrying their exact sum.  In the code every such call raises
`KeyError` (no default factory), the batch stays empty, and the subsequent
`flush()` submits no record at all, so no flushed record carries the sum. -/
theorem repeated_record_sum_never_flushed :
    recA3.error = some PyErr.keyError ∧
    recA4.error = some PyErr.keyError ∧
    recA4.state.usage_batch = [] ∧
    (flush recA4.state true).2 = [] := by
  simp [recA1, recA2, recA3, recA4, record, freshAccumulator, initialState,
    lookupKey, flush, flushLoop, pruneQueue]

/-- Claim C9: the spec's Scenario A (four `record()` calls then `flush()`)
is claimed to submit exactly three records.  In the code all four `record()`
calls raise `KeyError`, so the batch is empty and `flush()` submits zero
records. -/
theorem scenario_a_yields_no_records :
    recA1.error = some PyErr.keyError ∧
    recA2.error = some PyErr.keyError ∧
    recA3.error = some PyErr.keyError ∧
    recA4.error = some PyErr.keyError ∧
    (flush recA4.state true).2 = [] := by
  simp [recA1, recA2, recA3, recA4, record, freshAccumulator, initialState,
    lookupKey, flush, flushLoop, pruneQueue]

/-- Claim C3: a key whose record is successfully submitted during `flush()`
is claimed to be removed from the batch before the call returns.  In the
code the flush loop never mutates `self.__usage_batch`: here a one-key
batch is fully submitted (one message) yet the key is still in the batch
afterward, so a later flush would re-submit the same bucket. -/
theorem flush_leaves_submitted_key_in_batch :
    (flush oneKeyState true).2 = [mkMessage kSpans1 10] ∧
    (flush oneKeyState true).1.usage_batch = [(kSpans1, 10)] ∧
    lookupKey (flush oneKeyState true).1.usage_batch kSpans1 = some 10 := by
  refine ⟨?_, rfl, ?_⟩ <;>
    simp [flush, oneKeyState, pruneQueue, flushLoop, DEFAULT_QUEUE_SIZE,
      lookupKey]

/-- Claim C4: with `queue_size = N` and at most `N` in-flight handles before
the call, a `flush()` leaves at most `N` in-flight handles, performs at most
`N` publish calls in that invocation, and leaves the batch unchanged (so
every unsubmitted key is still present). -/
theorem flush_capacity_bound (s : UAState) (b : Bool)
    (h : s.futures.length ≤ s.queue_size) :
    (flush s b).1.futures.length ≤ s.queue_size ∧
    (flush s b).2.length ≤ s.queue_size ∧
    (flush s b).1.usage_batch = s.usage_batch := by
  have hp : (pruneQueue s.futures).length ≤ s.queue_size :=
    le_trans (pruneQueue_length_le s.futures) h
  have hs := flushLoop_spec s.queue_size s.usage_batch (pruneQueue s.futures) hp
  refine ⟨?_, ?_, rfl⟩
  · simpa [flush] using hs.1
  · have h1 := hs.1
    have h2 := hs.2
    simp only [flush]
    omega

/-- A concrete state for exercising `flush_capacity_bound`: `queue_size = 2`,
three distinct batch keys, no in-flight handles. -/
def threeKeyState : UAState :=
  { first_timestamp := some 0
    usage_batch :=
      [((0, "r", "a", .BYTES), 1), ((0, "r", "b", .BYTES), 1),
        ((0, "r", "c", .BYTES), 1)]
    granularity_sec := 10
    queue_size := 2
    futures := [] }

/-- Witness for `flush_capacity_bound` at `threeKeyState`. -/
theorem flush_capacity_bound_witness :
    threeKeyState.futures.length ≤ threeKeyState.queue_size ∧
    ((flush threeKeyState true).1.futures.length ≤ threeKeyState.queue_size ∧
      (flush threeKeyState true).2.length ≤ threeKeyState.queue_size ∧
      (flush threeKeyState true).1.usage_batch = threeKeyState.usage_batch) :=
  ⟨by simp [threeKeyState], flush_capacity_bound threeKeyState true
    (by simp [threeKeyState])⟩

/-- Claim C5: `flush(synchronous=True)` is claimed to block until delivery
of everything submitted is confirmed and to propagate publish failures.  In
the code the `synchronous` parameter is never read: the call's result is
identical for both flag values, and the body never inspects or waits on any
future's result, so nothing is confirmed and no failure can propagate. -/
theorem flush_independent_of_synchronous (s : UAState) (b₁ b₂ : Bool) :
    flush s b₁ = flush s b₂ := rfl

/-- Claim C6: `flush()` is claimed to reset `first_timestamp` exactly when
the batch has become empty by the end of the call.  In the code `flush`
never assigns `first_timestamp` at all; in particular, in the reachable
state after the first (failing) `record()` call the batch is empty yet
`first_timestamp` stays set across `flush()`. -/
theorem flush_never_resets_first_timestamp :
    (∀ (s : UAState) (b : Bool),
        (flush s b).1.first_timestamp = s.first_timestamp) ∧
    recA1.state.usage_batch = [] ∧
    recA1.state.first_timestamp = some tA1 ∧
    (flush recA1.state true).1.usage_batch = [] ∧
    (flush recA1.state true).1.first_timestamp = some tA1 := by
  refine ⟨fun s b => rfl, ?_⟩
  simp [recA1, record, freshAccumulator, initialState, lookupKey, flush,
    flushLoop, pruneQueue]

/-- A state at capacity (`queue_size = 2`) where the completed handle sits
BEHIND a pending one: `futures = [pending, done]`. -/
def doneBehindPendingState : UAState :=
  { first_timestamp := some 0
    usage_batch := [((0, "r", "a", .BYTES), 1)]
    granularity_sec := 10
    queue_size := 2
    futures := [false, true] }

/-- Claim C7 counterexample: the in-flight set is at capacity, a previously
submitted handle HAS completed, and the batch is nonempty, yet the next
`flush()` submits nothing: pruning only pops completed handles from the
front, and the front handle is still pending. -/
theorem flush_completed_behind_pending_not_pruned :
    doneBehindPendingState.futures.length = doneBehindPendingState.queue_size ∧
    true ∈ doneBehindPendingState.futures ∧
    doneBehindPendingState.usage_batch ≠ [] ∧
    (flush doneBehindPendingState false).2 = [] := by
  refine ⟨rfl, by simp [doneBehindPendingState], by simp [doneBehindPendingState], ?_⟩
  simp [flush, doneBehindPendingState, pruneQueue, flushLoop]

/-- Claim C7 (amended): if the handle at the FRONT of the in-flight set has
completed while the set is at capacity, and the batch is nonempty, then the
next `flush()` call submits at least one additional record. -/
theorem flush_submits_after_front_completes (s : UAState) (rest : List Bool)
    (b : Bool) (h1 : s.futures = true :: rest)
    (h2 : s.futures.length = s.queue_size)
    (h3 : s.usage_batch ≠ []) :
    1 ≤ (flush s b).2.length := by
  obtain ⟨⟨key, amount⟩, batchRest, hbatch⟩ :
      ∃ ka r, s.usage_batch = ka :: r := by
    cases hb : s.usage_batch with
    | nil => exact absurd hb h3
    | cons ka r => exact ⟨ka, r, rfl⟩
  have hpr : (pruneQueue s.futures).length < s.queue_size := by
    rw [h1]
    simp only [pruneQueue, if_pos]
    have hle := pruneQueue_length_le rest
    have : s.futures.length = rest.length + 1 := by rw [h1]; simp
    omega
  have hne : (pruneQueue s.futures).length ≠ s.queue_size := Nat.ne_of_lt hpr
  simp only [flush, hbatch]
  rw [flushLoop_cons_of_room s.queue_size key amount batchRest
    (pruneQueue s.futures) hne]
  simp

/-- A state at capacity (`queue_size = 2`) whose FRONT in-flight handle has
completed: `futures = [done, pending]`. -/
def doneInFrontState : UAState :=
  { first_timestamp := some 0
    usage_batch := [((0, "r", "a", .BYTES), 1)]
    granularity_sec := 10
    queue_size := 2
    futures := [true, false] }

/-- Witness for `flush_submits_after_front_completes` at `doneInFrontState`. -/
theorem flush_submits_after_front_completes_witness :
    (doneInFrontState.futures = true :: [false] ∧
      doneInFrontState.futures.length = doneInFrontState.queue_size ∧
      doneInFrontState.usage_batch ≠ []) ∧
    1 ≤ (flush doneInFrontState false).2.length :=
  ⟨⟨rfl, rfl, by simp [doneInFrontState]⟩,
    flush_submits_after_front_completes doneInFrontState [false] false rfl rfl
      (by simp [doneInFrontState])⟩

/-- The second `record()` time for the auto-flush claim:
`t0 + G + ε` with `G = 10` and `ε = 0.1`. -/
def tLate : ℚ := tA1 + 10 + 1 / 10

/-- The auto-flush scenario's second call: `record()` at `tLate` after the
first call at `tA1`. -/
def recLate : RecordResult :=
  record recA1.state tLate "metrics_consumer" "spans" 10 .BYTES

/-- Claim C8: a `record()` at `t0` followed by one at `t0 + G + ε` is claimed
to trigger an asynchronous flush.  In the code the second call raises
`KeyError` on the batch subscript BEFORE the `now - first_timestamp >
granularity_sec` check, so no flush happens even though the trigger
condition holds arithmetically. -/
theorem record_autoflush_never_reached :
    (10 : ℚ) < tLate - tA1 ∧
    recA1.state.first_timestamp = some tA1 ∧
    recLate.error = some PyErr.keyError ∧
    recLate.produced = [] ∧
    recLate.state.futures = [] := by
  refine ⟨by norm_num [tLate, tA1], ?_⟩
  simp [recLate, recA1, record, freshAccumulator, initialState, lookupKey]

/-- Claim C10: construction succeeds exactly when one configuration source
is supplied — either a producer and neither kafka parameter, or no producer
and both kafka parameters; every other combination raises
`AssertionError`. -/
theorem init_requires_exactly_one_config_source (g : ℤ) (q : ℕ)
    (p b c : Bool) :
    (initAccumulator g q p b c = Except.ok (initialState g q) ↔
      ((p = true ∧ b = false ∧ c = false) ∨
        (p = false ∧ b = true ∧ c = true))) ∧
    (initAccumulator g q p b c = Except.error PyErr.assertionError ↔
      ¬((p = true ∧ b = false ∧ c = false) ∨
        (p = false ∧ b = true ∧ c = true))) := by
  cases p <;> cases b <;> cases c <;> simp [initAccumulator]
